import Mathlib

/-!
Shallow embedding of the nanobanana generation-orchestration core.

The definitions below are translated from the repository source:
* `src/App.tsx` (the current `App` component: prompt assembly, error
  classification, credential lifecycle, mode switching, dispatch guards,
  asset-URL cleanup effect),
* `src/services/geminiService.ts` (`generateVideo` polling loop,
  `createWavBlob` / `createWavBlobFromBase64`),
* `src/types.ts` (`HistoryItem`, `ModeState`).
JavaScript strings are modelled as Lean `String`, numbers as `Nat`/`Int`
with explicit truncation where the source truncates, nullable values as
`Option`, and the React state of the `App` component as an explicit
record `AppState`.
-/

namespace NanoBanana

/-- Structure `ImageData` from `src/types.ts`: base64 bytes plus a mime type. -/
structure ImageData where
  imageBytes : String
  mimeType : String
  deriving Repr, DecidableEq

/-- Constant `PERSON_ACTIONS` from `src/App.tsx`: the fixed fallback phrase pool. -/
def PERSON_ACTIONS : List String :=
  [ "caminando"
  , "leyendo un libro"
  , "mirando el cielo"
  , "sentado en un banco"
  , "bailando"
  , "tomando una foto" ]

/-- JavaScript `String.prototype.trim`: strip leading and trailing
whitespace.  (Defined over the character list so that it evaluates by
kernel reduction.) -/
def jsTrim (s : String) : String :=
  ⟨((s.data.dropWhile Char.isWhitespace).reverse.dropWhile Char.isWhitespace).reverse⟩

/-- JavaScript string truthiness-guarded append used throughout
`handleImageGeneration`: `finalPrompt = finalPrompt ? `${finalPrompt}, ${c}` : c`. -/
def appendClause (s c : String) : String :=
  if s = "" then c else s ++ ", " ++ c

/-- The person clause of `handleImageGeneration`:
`contextualPersonSuggestion || "una persona " + PERSON_ACTIONS[...]`
(JS `||` falls back on `null` and on the empty string). -/
def personClause (suggestion : Option String) (personIdx : Nat) : String :=
  match suggestion with
  | some s => if s = "" then "una persona " ++ (PERSON_ACTIONS.getD personIdx "") else s
  | none => "una persona " ++ (PERSON_ACTIONS.getD personIdx "")

/-- The `removeText` clause of `handleImageGeneration`. -/
def removeTextClause : String := "remove any text from the image"

/-- The similarity `switch` of `handleImageGeneration` (src/App.tsx lines
1463-1476): each of the four bands maps to a fixed instruction string,
anything else to the empty string. -/
def similarityClause (similarity : Nat) : String :=
  if similarity = 25 then
    "use the original image as a loose inspiration for the new image"
  else if similarity = 50 then
    "apply the changes described, but feel free to creatively reinterpret the original image"
  else if similarity = 75 then
    "apply the changes described while maintaining a strong resemblance to the original image's style and composition"
  else if similarity = 100 then
    "make only the changes described and keep the rest of the image identical to the original"
  else ""

/-- The first three steps of the prompt assembly of `handleImageGeneration`
(src/App.tsx lines 1450-1459): start from the trimmed prompt, then
conditionally append the person clause and the remove-text clause.
`personIdx` stands for the value of
`Math.floor(Math.random() * PERSON_ACTIONS.length)`. -/
def assembledBase (prompt : String) (addPerson : Bool) (suggestion : Option String)
    (personIdx : Nat) (removeText : Bool) : String :=
  let p1 := jsTrim prompt
  let p2 := if addPerson then appendClause p1 (personClause suggestion personIdx) else p1
  if removeText then appendClause p2 removeTextClause else p2

/-- Full prompt assembly of `handleImageGeneration` (src/App.tsx lines
1450-1480): `assembledBase` followed by the similarity step, which fires only
when a base image is uploaded, a similarity value is selected, and that value
maps to a non-empty instruction (i.e. is one of the four bands). -/
def assembledPrompt (prompt : String) (addPerson : Bool) (suggestion : Option String)
    (personIdx : Nat) (removeText : Bool) (singleImageData : Option ImageData)
    (similarity : Option Nat) : String :=
  let p3 := assembledBase prompt addPerson suggestion personIdx removeText
  match singleImageData, similarity with
  | some _, some s =>
      let c := similarityClause s
      if c = "" then p3 else appendClause p3 c
  | _, _ => p3

/-- The dispatch step of `handleImageGeneration` after prompt assembly
(src/App.tsx lines 1482-1491): if the assembled prompt trims to empty and no
base image is uploaded, no provider operation is dispatched; otherwise exactly
one `generateImage` operation is dispatched with the assembled prompt. -/
def imageDispatches (prompt : String) (addPerson : Bool) (suggestion : Option String)
    (personIdx : Nat) (removeText : Bool) (singleImageData : Option ImageData)
    (similarity : Option Nat) : List String :=
  let fp := assembledPrompt prompt addPerson suggestion personIdx removeText
      singleImageData similarity
  if jsTrim fp = "" ∧ singleImageData = none then []
  else [fp]

/-- Spec-side join: the clauses of the assembled prompt, in order, separated
by `", "`. -/
def joinClauses : List String → String
  | [] => ""
  | [c] => c
  | c :: rest => c ++ ", " ++ joinClauses rest

/-- Spec-side list of appended clauses, in order: the person clause, the
remove-text clause, the similarity clause — each present exactly when its
condition fires. -/
def specTail (addPerson : Bool) (suggestion : Option String) (personIdx : Nat)
    (removeText : Bool) (singleImageData : Option ImageData)
    (similarity : Option Nat) : List String :=
  (if addPerson then [personClause suggestion personIdx] else [])
    ++ (if removeText then [removeTextClause] else [])
    ++ (match singleImageData, similarity with
        | some _, some s => if similarityClause s = "" then [] else [similarityClause s]
        | _, _ => [])

/-- Spec-side clause list: trimmed prompt first (when non-empty), then the
appended clauses in order. -/
def specClauseList (prompt : String) (addPerson : Bool) (suggestion : Option String)
    (personIdx : Nat) (removeText : Bool) (singleImageData : Option ImageData)
    (similarity : Option Nat) : List String :=
  (if jsTrim prompt = "" then [] else [jsTrim prompt])
    ++ specTail addPerson suggestion personIdx removeText singleImageData similarity

/-- Union `AppMode` from `src/App.tsx`. -/
inductive Mode where
  | image | video | recipe | linkRecipe | speech | productShot
  deriving Repr, DecidableEq

/-- The `assetType` union from `src/App.tsx`. -/
inductive AssetType where
  | image | video | recipe | audio | productShot
  deriving Repr, DecidableEq

/-- The `apiProvider` value from `src/App.tsx` (`'gemini' | 'openrouter'`). -/
inductive Provider where
  | gemini | openrouter
  deriving Repr, DecidableEq

/-- The `error` slot of `src/App.tsx`: either the auth/quota JSX banner built
in `callApiService`, or a plain string message. -/
inductive ErrorSlot where
  | banner
  | msg (text : String)
  deriving Repr, DecidableEq

/-- The React state of the `App` component of `src/App.tsx` (the fields the
claims touch), as one explicit record. -/
structure AppState where
  mode : Mode
  prompt : String
  similarity : Option Nat
  removeText : Bool
  singleImageData : Option ImageData
  productImages : List ImageData
  inspirationImageData : Option ImageData
  isLoading : Bool
  assetUrls : List String
  assetType : Option AssetType
  error : Option ErrorSlot
  isAnalyzing : Bool
  addPerson : Bool
  contextualPersonSuggestion : Option String
  targetLanguage : String
  stylizeAndCorrect : Bool
  selectedVoice : String
  sources : Option (List String)
  recipeImageUrl : Option String
  selectedImageIndex : Option Nat
  textToTranslate : String
  translationResult : Option String
  isTranslating : Bool
  apiProvider : Provider
  geminiStored : Option String
  openRouterStored : Option String
  hasGeminiApiKey : Bool
  hasOpenRouterApiKey : Bool
  geminiApiKeyInput : String
  openRouterApiKeyInput : String
  selectedOpenRouterModel : String
  deriving Repr, DecidableEq

/-- Function `handleModeChange` from `src/App.tsx` lines 1630-1652: if the target mode
differs from the current one, switch to it and reset the listed state
variables to their initial values; otherwise do nothing. -/
def handleModeChange (s : AppState) (newMode : Mode) : AppState :=
  if newMode = s.mode then s
  else
    { s with
      mode := newMode
      prompt := ""
      similarity := none
      removeText := false
      singleImageData := none
      productImages := []
      inspirationImageData := none
      assetUrls := []
      assetType := none
      error := none
      addPerson := false
      contextualPersonSuggestion := none
      targetLanguage := "Spanish"
      stylizeAndCorrect := false
      selectedVoice := "Kore"
      sources := none
      recipeImageUrl := none
      textToTranslate := ""
      translationResult := none }

/-- JavaScript `String.prototype.toLowerCase` (ASCII fragment, as used by the
error classifier of `callApiService`). -/
def lowerString (s : String) : String :=
  ⟨s.data.map Char.toLower⟩

/-- Occurrence of `pat` as a contiguous sublist starting at some suffix. -/
def listContainsSeq (pat : List Char) : List Char → Bool
  | [] => pat.isEmpty
  | c :: rest => pat.isPrefixOf (c :: rest) || listContainsSeq pat rest

/-- JavaScript `String.prototype.includes`. -/
def containsSubstr (s pat : String) : Bool :=
  listContainsSeq pat.data s.data

/-- The substrings matched (against the lower-cased error message) by the
auth/quota classifier of `callApiService` (src/App.tsx lines 1422-1429). -/
def AUTH_ERROR_SUBSTRINGS : List String :=
  [ "api key not found"
  , "api key is invalid"
  , "requested entity was not found"
  , "permission"
  , "quota"
  , "resource_exhausted"
  , "invalid api key" ]

/-- The auth/quota error classifier of `callApiService`. -/
def isAuthQuotaError (message : String) : Bool :=
  AUTH_ERROR_SUBSTRINGS.any (fun pat => containsSubstr (lowerString message) pat)

/-- Function `handleClearKey` from `src/App.tsx` lines 1369-1379: purge the durable
copy of the active provider's credential, drop the has-key flag (which forces
the no-credential view), and clear the key input field. -/
def handleClearKey (s : AppState) : AppState :=
  match s.apiProvider with
  | .gemini =>
      { s with geminiStored := none, hasGeminiApiKey := false, geminiApiKeyInput := "" }
  | .openrouter =>
      { s with openRouterStored := none, hasOpenRouterApiKey := false,
               openRouterApiKeyInput := "" }

/-- The `catch` branch of `callApiService` (src/App.tsx lines 1419-1448): a
provider call failed with message `message`.  If the auth/quota classifier
matches, set the banner error and clear the stored key; otherwise surface the
message itself. -/
def applyApiError (s : AppState) (message : String) : AppState :=
  if isAuthQuotaError message then
    handleClearKey { s with error := some .banner }
  else
    { s with error := some (.msg message) }

/-- The durable copy of the credential of provider `p` in state `s`
(`localStorage` keys `gemini-api-key` / `openrouter-api-key`). -/
def storedKeyFor (s : AppState) (p : Provider) : Option String :=
  match p with
  | .gemini => s.geminiStored
  | .openrouter => s.openRouterStored

/-- Value `hasActiveApiKey` from `src/App.tsx` line 1272. -/
def hasActiveApiKey (s : AppState) : Bool :=
  (s.apiProvider = Provider.gemini && s.hasGeminiApiKey)
    || (s.apiProvider = Provider.openrouter && s.hasOpenRouterApiKey)

/-- Function `isProviderCompatibleWithMode` from `src/App.tsx` lines 1696-1702. -/
def isProviderCompatibleWithMode (s : AppState) : Bool :=
  if s.apiProvider = Provider.gemini then true
  else if s.mode = Mode.image then true
  else s.mode = Mode.recipe

/-- Value `baseCanGenerate` from `src/App.tsx` line 1692. -/
def baseCanGenerate (s : AppState) : Bool :=
  (jsTrim s.prompt).length > 0

/-- Value `imageGenCanGenerate` from `src/App.tsx` line 1704. -/
def imageGenCanGenerate (s : AppState) : Bool :=
  s.mode = Mode.image
    && ((jsTrim s.prompt).length > 0
        || (s.singleImageData.isSome
            && (s.removeText || s.addPerson || s.similarity.isSome)))

/-- Value `productShotCanGenerate` from `src/App.tsx` line 1705. -/
def productShotCanGenerate (s : AppState) : Bool :=
  s.mode = Mode.productShot && s.productImages.length > 0

/-- Value `linkRecipeCanGenerate` from `src/App.tsx` line 1706. -/
def linkRecipeCanGenerate (s : AppState) : Bool :=
  s.mode = Mode.linkRecipe && (jsTrim s.prompt).length > 0

/-- Value `canGenerate` from `src/App.tsx` lines 1708-1715. -/
def canGenerate (s : AppState) : Bool :=
  hasActiveApiKey s && isProviderCompatibleWithMode s
    && ((s.mode = Mode.image && s.apiProvider = Provider.gemini && imageGenCanGenerate s)
        || (s.mode = Mode.recipe && baseCanGenerate s)
        || (s.mode = Mode.video && s.apiProvider = Provider.gemini && baseCanGenerate s)
        || (s.mode = Mode.productShot && s.apiProvider = Provider.gemini
            && productShotCanGenerate s)
        || (s.mode = Mode.linkRecipe && s.apiProvider = Provider.gemini
            && linkRecipeCanGenerate s)
        || (s.mode = Mode.speech && s.apiProvider = Provider.gemini && baseCanGenerate s))

/-- Missing-key branch of `callApiService`: only the has-key flag of the
active provider is dropped (the stored copy is already absent). -/
def dropActiveKeyFlag (s : AppState) : AppState :=
  match s.apiProvider with
  | .gemini => { s with hasGeminiApiKey := false }
  | .openrouter => { s with hasOpenRouterApiKey := false }

/-- Error message set by `callApiService` when the active provider has no
stored key. -/
def missingKeyMessage (p : Provider) : String :=
  match p with
  | .gemini => "Please provide a Gemini API key to proceed."
  | .openrouter => "Please provide an OpenRouter API key to proceed."

/-- One Image-mode submission attempt: the `GenerateButton` is disabled when
`isLoading || isTranslating || !canGenerate` (src/App.tsx line 1178), so a
disabled attempt changes nothing; otherwise `handleGenerate` runs
`handleImageGeneration` (src/App.tsx lines 1450-1499): assemble the prompt,
bail out with an input-error message when it trims to empty with no uploaded
image, otherwise clear the output slot and dispatch exactly one
`generateImage` operation through `callApiService` (which itself bails out if
the durable key is missing).  Returns the list of dispatched prompts and the
state at the moment of dispatch. -/
def attemptImageGenerate (s : AppState) (personIdx : Nat) : List String × AppState :=
  if s.mode ≠ Mode.image then ([], s)
  else if s.isLoading || s.isTranslating || !canGenerate s then ([], s)
  else
    let fp := assembledPrompt s.prompt s.addPerson s.contextualPersonSuggestion
        personIdx s.removeText s.singleImageData s.similarity
    if jsTrim fp = "" ∧ s.singleImageData = none then
      ([], { s with error := some (.msg "Please enter a prompt or upload an image to edit.") })
    else
      match storedKeyFor s s.apiProvider with
      | none =>
          ([], dropActiveKeyFlag { s with error := some (.msg (missingKeyMessage s.apiProvider)) })
      | some _ =>
          ([fp], { s with isLoading := true, assetUrls := [], assetType := none,
                          error := none })

/-- JavaScript `String.prototype.startsWith`. -/
def startsWith (s pre : String) : Bool :=
  pre.data.isPrefixOf s.data

/-- Predicate used by the cleanup effect: `url.startsWith('blob:')`. -/
def isBlobUrl (u : String) : Bool :=
  startsWith u "blob:"

/-- Filter used by the cleanup effect's `forEach` loops: the blob object URLs
of a list, in order. -/
def blobUrls (urls : List String) : List String :=
  urls.filter isBlobUrl

/-- State of the asset-URL cleanup `useEffect` of `src/App.tsx` lines
1296-1311: the `previousAssetUrls` ref, the `assetUrls` list captured by the
currently registered cleanup closure, and the log of
`URL.revokeObjectURL` calls made so far (one entry per call). -/
structure CleanupState where
  prevRef : List String
  captured : List String
  revoked : List String
  deriving Repr, DecidableEq

/-- State right after the component mounts with `assetUrls = []`: the mount
run of the effect revokes the blob URLs of the ref (empty), stores `[]` in the
ref and registers a cleanup capturing `[]`. -/
def initialCleanupState : CleanupState :=
  { prevRef := [], captured := [], revoked := [] }

/-- Effect of one `setAssetUrls(newUrls)` re-render: React first runs the
previously registered cleanup closure (which revokes the blob URLs it
captured), then runs the effect body, which revokes the blob URLs held in
`previousAssetUrls.current`, stores `newUrls` there, and registers a new
cleanup capturing `newUrls`. -/
def setAssetUrlsStep (st : CleanupState) (newUrls : List String) : CleanupState :=
  { prevRef := newUrls
  , captured := newUrls
  , revoked := st.revoked ++ blobUrls st.captured ++ blobUrls st.prevRef }

/-- Session teardown: React runs the registered cleanup closure one last
time, revoking the blob URLs it captured. -/
def unmountStep (st : CleanupState) : List String :=
  st.revoked ++ blobUrls st.captured

/-- Full revocation log of a session: mount with empty `assetUrls`, a
sequence of `setAssetUrls` updates, then unmount. -/
def runAssetTrace (updates : List (List String)) : List String :=
  unmountStep (updates.foldl setAssetUrlsStep initialCleanupState)

/-- Number of `URL.revokeObjectURL(u)` calls in a revocation log. -/
def revokeCount (log : List String) (u : String) : Nat :=
  log.count u

/-- Video operation handle as observed by `generateVideo`
(src/services/geminiService.ts lines 164-198): the `done` flag, the download
link `operation.response?.generatedVideos?.[0]?.video?.uri` and
`operation.error?.message`. -/
structure VideoOp where
  done : Bool
  uri : Option String
  errorMessage : Option String
  deriving Repr, DecidableEq

/-- Fixed polling interval of `generateVideo`:
`setTimeout(resolve, 10000)` — 10 seconds, in milliseconds. -/
def POLL_INTERVAL_MS : Nat := 10000

/-- Polling loop of `generateVideo`: `while (!operation.done) { sleep 10s;
operation = getVideosOperation(...) }`.  The provider's successive poll
responses are the list `polls`; the result is the terminal operation, the
number of `getVideosOperation` calls made, and the total milliseconds slept,
or `none` if the finite response list is exhausted while still non-terminal. -/
def pollLoop (op : VideoOp) (polls : List VideoOp) : Option (VideoOp × Nat × Nat) :=
  if op.done then some (op, 0, 0)
  else
    match polls with
    | [] => none
    | p :: rest =>
        match pollLoop p rest with
        | some (f, n, ms) => some (f, n + 1, ms + POLL_INTERVAL_MS)
        | none => none

/-- Settling step of `generateVideo` after the loop: with a download link the
request settles in success (the video is downloaded from the link); without
one it fails with the provider's message verbatim, or the fixed fallback
message. -/
def settleVideo (op : VideoOp) : Except String String :=
  match op.uri with
  | some link => .ok link
  | none => .error (op.errorMessage.getD "Video generation failed to produce a download link.")

/-- End-to-end model of `generateVideo` after submission: run the polling
loop from the operation returned by `generateVideos`, then settle once. -/
def generateVideoRun (submitted : VideoOp) (polls : List VideoOp) :
    Option (Except String String × Nat × Nat) :=
  (pollLoop submitted polls).map (fun r => (settleVideo r.1, r.2.1, r.2.2))

/-- Little-endian bytes of `DataView.setUint16(_, v, true)`. -/
def u16le (v : Nat) : List Nat :=
  [v % 256, v / 256 % 256]

/-- Little-endian bytes of `DataView.setUint32(_, v, true)` (JavaScript
coerces the value with ToUint32, i.e. modulo 2^32). -/
def u32le (v : Nat) : List Nat :=
  [v % 256, v / 256 % 256, v / 65536 % 256, v / 16777216 % 256]

/-- Bytes written by the `writeString` helper of `createWavBlob`: the code
units of an ASCII tag. -/
def tagBytes (s : String) : List Nat :=
  s.data.map (fun c => c.toNat % 256)

/-- The 44-byte WAV header built by `createWavBlob`
(src/services/geminiService.ts lines 26-53) for `dataSize` bytes of PCM
data. -/
def wavHeader (dataSize sampleRate numChannels : Nat) : List Nat :=
  tagBytes "RIFF" ++ u32le (36 + dataSize)
    ++ tagBytes "WAVE" ++ tagBytes "fmt "
    ++ u32le 16 ++ u16le 1 ++ u16le numChannels
    ++ u32le sampleRate ++ u32le (sampleRate * numChannels * 2)
    ++ u16le (numChannels * 2) ++ u16le 16
    ++ tagBytes "data" ++ u32le dataSize


/-- Blob value: the concatenated byte parts and the declared content type. -/
structure Blob where
  bytes : List Nat
  type : String
  deriving Repr, DecidableEq

/-- Size in bytes of a Blob (`blob.size`). -/
def Blob.size (b : Blob) : Nat := b.bytes.length

/-- Result of `createWavBlob(pcmData, sampleRate, numChannels)`: the 44-byte
header followed by the raw PCM bytes, declared as `audio/wav`.  `pcmBytes`
holds the bytes backing the `Int16Array`; the code computes
`dataSize = pcmData.length * 2` from the sample count
`pcmData.length = floor(bytes / 2)`. -/
def createWavBlob (pcmBytes : List Nat) (sampleRate numChannels : Nat) : Blob :=
  { bytes := wavHeader (pcmBytes.length / 2 * 2) sampleRate numChannels
      ++ pcmBytes.take (pcmBytes.length / 2 * 2)
  , type := "audio/wav" }

/-- Value of one base64 alphabet character, `none` for anything else. -/
def b64Val (c : Char) : Option Nat :=
  if 'A' ≤ c ∧ c ≤ 'Z' then some (c.toNat - 'A'.toNat)
  else if 'a' ≤ c ∧ c ≤ 'z' then some (c.toNat - 'a'.toNat + 26)
  else if '0' ≤ c ∧ c ≤ '9' then some (c.toNat - '0'.toNat + 52)
  else if c = '+' then some 62
  else if c = '/' then some 63
  else none

/-- Byte output of base64 decoding, quad by quad: four 6-bit values give
three bytes, a trailing pair gives one byte, a trailing triple gives two. -/
def b64Quads : List Nat → Option (List Nat)
  | [] => some []
  | [_] => none
  | [a, b] => some [a * 4 + b / 16]
  | [a, b, c] => some [a * 4 + b / 16, b % 16 * 16 + c / 4]
  | a :: b :: c :: d :: rest =>
      match b64Quads rest with
      | some tail => some ([a * 4 + b / 16, b % 16 * 16 + c / 4, c % 4 * 64 + d] ++ tail)
      | none => none

/-- JavaScript `atob` (forgiving-base64 decode): strip ASCII whitespace, drop
up to two trailing `=` padding characters, map the remaining characters
through the base64 alphabet and reassemble the bytes; `none` models the
`InvalidCharacterError` thrown on malformed input. -/
def atob (s : String) : Option (List Nat) :=
  let cs := s.data.filter (fun c => !(c = ' ' ∨ c = '\t' ∨ c = '\n' ∨ c = '\r' ∨ c = '\x0c'))
  let cs := if cs.length % 4 = 0 then
      (if cs.reverse.take 2 = ['=', '='] then cs.dropLast.dropLast
       else if cs.reverse.take 1 = ['='] then cs.dropLast
       else cs)
    else cs
  match cs.mapM b64Val with
  | some vals => b64Quads vals
  | none => none

/-- Model of `createWavBlobFromBase64` (src/services/geminiService.ts lines
55-60): decode the base64 payload, view the bytes as an `Int16Array`
(constructing `new Int16Array(buffer)` throws when the byte length is odd)
and wrap them in a 24000 Hz mono WAV blob. -/
def createWavBlobFromBase64 (base64Audio : String) : Option Blob :=
  match atob base64Audio with
  | none => none
  | some pcmBytes =>
      if pcmBytes.length % 2 = 0 then some (createWavBlob pcmBytes 24000 1)
      else none

/-- Value of a little-endian byte sequence. -/
def leVal : List Nat → Nat
  | [] => 0
  | b :: rest => b + 256 * leVal rest

/-- Read back a little-endian 16-bit field at byte offset `off`. -/
def readU16le (bs : List Nat) (off : Nat) : Nat :=
  leVal ((bs.drop off).take 2)

/-- Read back a little-endian 32-bit field at byte offset `off`. -/
def readU32le (bs : List Nat) (off : Nat) : Nat :=
  leVal ((bs.drop off).take 4)

/-- Union of `assetType` values storable in a `HistoryItem`
(src/types.ts line 15). -/
inductive HistAssetType where
  | image | recipe | audio | productShot | blogPost | recipeCard
  deriving Repr, DecidableEq

/-- Union `AppMode` from `src/types.ts` line 8 (the history-bearing build). -/
inductive HistMode where
  | image | recipe | speech | productShot | blogPost | recipeCard
  deriving Repr, DecidableEq

/-- Structure `HistoryItem` from `src/types.ts` lines 10-21 (the `sources`
field, typed `any[]`, is modelled as a list of opaque strings). -/
structure HistoryItem where
  id : String
  mode : HistMode
  prompt : String
  assetUrls : List String
  assetType : Option HistAssetType
  translationResult : Option String
  recipeImageUrl : Option String
  blogPostImageUrl : Option String
  timestamp : Nat
  sources : Option (List String)
  deriving Repr, DecidableEq

/-- Modelled from the spec: the history capacity N ("capacity N, e.g. 50",
spec section 3) — the implementation of the history log is not under `src/`
(only its `HistoryItem`/`ModeState` types and the `HistoryPanel` consumer
are). -/
def HISTORY_CAPACITY : Nat := 50

/-- Modelled from the spec: `append(item)` of the HistoryLog ("prepend, then
truncate to capacity", spec section 4.5) — the history log implementation is
not under `src/`. -/
def historyAppend (log : List HistoryItem) (item : HistoryItem) : List HistoryItem :=
  (item :: log).take HISTORY_CAPACITY

/-- Visible output fields of a replayed generation, as named by the spec's
round-trip law: output asset references, asset kind, optional secondary
translation text, optional cover-image reference. -/
structure VisibleOutputs where
  assetUrls : List String
  assetType : Option HistAssetType
  translationResult : Option String
  recipeImageUrl : Option String
  deriving Repr, DecidableEq

/-- Visible output fields recorded in a `HistoryItem` at append time. -/
def HistoryItem.visible (h : HistoryItem) : VisibleOutputs :=
  { assetUrls := h.assetUrls
  , assetType := h.assetType
  , translationResult := h.translationResult
  , recipeImageUrl := h.recipeImageUrl }

/-- Structure `ModeState` from `src/types.ts` lines 23-49 (fields relevant to
replay; `error` is omitted as replay never restores an error). -/
structure ModeState where
  prompt : String
  similarity : Option Nat
  removeText : Bool
  assetUrls : List String
  assetType : Option HistAssetType
  addPerson : Bool
  targetLanguage : String
  textToTranslate : String
  translationResult : Option String
  recipeImageUrl : Option String
  blogPostImageUrl : Option String
  sources : Option (List String)
  deriving Repr, DecidableEq

/-- Modelled from the spec: `selectForReplay(item) -> ModeState`, the "pure
reconstruction function" of spec section 4.5 — the history selection
implementation is not under `src/` (only the `HistoryPanel` consumer is).
It rebuilds a `ModeState` whose visible output fields come from the item,
with the input fields at their defaults. -/
def selectForReplay (h : HistoryItem) : ModeState :=
  { prompt := h.prompt
  , similarity := none
  , removeText := false
  , assetUrls := h.assetUrls
  , assetType := h.assetType
  , addPerson := false
  , targetLanguage := "Spanish"
  , textToTranslate := ""
  , translationResult := h.translationResult
  , recipeImageUrl := h.recipeImageUrl
  , blogPostImageUrl := h.blogPostImageUrl
  , sources := h.sources }

/-- Visible output fields of a reconstructed `ModeState`. -/
def ModeState.visible (m : ModeState) : VisibleOutputs :=
  { assetUrls := m.assetUrls
  , assetType := m.assetType
  , translationResult := m.translationResult
  , recipeImageUrl := m.recipeImageUrl }

/-- JSON-like values, the image of the durable local store ("ordered list of
HistoryItem, JSON-serializable", spec section 6). -/
inductive JVal where
  | null
  | str (s : String)
  | num (n : Nat)
  | arr (xs : List JVal)
  | obj (fields : List (String × JVal))

/-- Serialization of a history mode tag. -/
def histModeTag : HistMode → String
  | .image => "image"
  | .recipe => "recipe"
  | .speech => "speech"
  | .productShot => "productShot"
  | .blogPost => "blogPost"
  | .recipeCard => "recipeCard"

/-- Deserialization of a history mode tag. -/
def histModeOfTag (s : String) : Option HistMode :=
  if s = "image" then some .image
  else if s = "recipe" then some .recipe
  else if s = "speech" then some .speech
  else if s = "productShot" then some .productShot
  else if s = "blogPost" then some .blogPost
  else if s = "recipeCard" then some .recipeCard
  else none

/-- Serialization of an asset-kind tag. -/
def histAssetTag : HistAssetType → String
  | .image => "image"
  | .recipe => "recipe"
  | .audio => "audio"
  | .productShot => "productShot"
  | .blogPost => "blogPost"
  | .recipeCard => "recipeCard"

/-- Deserialization of an asset-kind tag. -/
def histAssetOfTag (s : String) : Option HistAssetType :=
  if s = "image" then some .image
  else if s = "recipe" then some .recipe
  else if s = "audio" then some .audio
  else if s = "productShot" then some .productShot
  else if s = "blogPost" then some .blogPost
  else if s = "recipeCard" then some .recipeCard
  else none

/-- Encoding of an optional string as JSON (`null` for a missing value). -/
def encOptStr : Option String → JVal
  | none => .null
  | some s => .str s

/-- Decoding of an optional string from JSON. -/
def decOptStr : JVal → Option (Option String)
  | .null => some none
  | .str s => some (some s)
  | _ => none

/-- Decoding of a string from JSON. -/
def decStr : JVal → Option String
  | .str s => some s
  | _ => none

/-- Decoding of a number from JSON. -/
def decNum : JVal → Option Nat
  | .num n => some n
  | _ => none

/-- Decoding of a string list, element by element. -/
def decStrs : List JVal → Option (List String)
  | [] => some []
  | v :: rest =>
      match decStr v, decStrs rest with
      | some s, some ss => some (s :: ss)
      | _, _ => none

/-- Decoding of an optional asset-kind tag (`null` for a missing value). -/
def decAssetTypeVal : JVal → Option (Option HistAssetType)
  | .null => some none
  | .str s => (histAssetOfTag s).map some
  | _ => none

/-- Decoding of an optional source list (`null` for a missing value). -/
def decSourcesVal : JVal → Option (Option (List String))
  | .null => some none
  | .arr xs => (decStrs xs).map some
  | _ => none

/-- Modelled from the spec: serialization of one `HistoryItem` for the
durable local store. -/
def encodeItem (h : HistoryItem) : JVal :=
  .obj
    [ ("id", .str h.id)
    , ("mode", .str (histModeTag h.mode))
    , ("prompt", .str h.prompt)
    , ("assetUrls", .arr (h.assetUrls.map .str))
    , ("assetType", match h.assetType with | none => .null | some a => .str (histAssetTag a))
    , ("translationResult", encOptStr h.translationResult)
    , ("recipeImageUrl", encOptStr h.recipeImageUrl)
    , ("blogPostImageUrl", encOptStr h.blogPostImageUrl)
    , ("timestamp", .num h.timestamp)
    , ("sources", match h.sources with | none => .null | some xs => .arr (xs.map .str)) ]

/-- Modelled from the spec: deserialization of one `HistoryItem` from the
durable local store (fields in the order written by `encodeItem`). -/
def decodeItem : JVal → Option HistoryItem
  | .obj [("id", .str id), ("mode", .str modeTag), ("prompt", .str prompt),
          ("assetUrls", .arr urlVals), ("assetType", assetTypeVal),
          ("translationResult", trVal), ("recipeImageUrl", ruVal),
          ("blogPostImageUrl", buVal), ("timestamp", .num timestamp),
          ("sources", srcVal)] =>
      match histModeOfTag modeTag, decStrs urlVals, decAssetTypeVal assetTypeVal,
            decOptStr trVal, decOptStr ruVal, decOptStr buVal,
            decSourcesVal srcVal with
      | some mode, some assetUrls, some assetType, some translationResult,
          some recipeImageUrl, some blogPostImageUrl, some sources =>
          some { id, mode, prompt, assetUrls, assetType, translationResult,
                 recipeImageUrl, blogPostImageUrl, timestamp, sources }
      | _, _, _, _, _, _, _ => none
  | _ => none

/-- Decoding of a list of history items, element by element. -/
def decodeItems : List JVal → Option (List HistoryItem)
  | [] => some []
  | v :: rest =>
      match decodeItem v, decodeItems rest with
      | some h, some hs => some (h :: hs)
      | _, _ => none

/-- Modelled from the spec: the history log as persisted to the durable local
store on every change. -/
def encodeLog (log : List HistoryItem) : JVal :=
  .arr (log.map encodeItem)

/-- Modelled from the spec: reload of the history log from the durable local
store at session start. -/
def decodeLog : JVal → Option (List HistoryItem)
  | .arr xs => decodeItems xs
  | _ => none

/-- The history log obtained by appending the generations `gs` in order,
starting from an empty log. -/
def buildLog (gs : List HistoryItem) : List HistoryItem :=
  gs.foldl historyAppend []

/-- Sample session state: every input at its initial value, credential
present (the state right after a key is saved at session start). -/
def emptyAppState : AppState :=
  { mode := .image
  , prompt := ""
  , similarity := none
  , removeText := false
  , singleImageData := none
  , productImages := []
  , inspirationImageData := none
  , isLoading := false
  , assetUrls := []
  , assetType := none
  , error := none
  , isAnalyzing := false
  , addPerson := false
  , contextualPersonSuggestion := none
  , targetLanguage := "Spanish"
  , stylizeAndCorrect := false
  , selectedVoice := "Kore"
  , sources := none
  , recipeImageUrl := none
  , selectedImageIndex := none
  , textToTranslate := ""
  , translationResult := none
  , isTranslating := false
  , apiProvider := .gemini
  , geminiStored := some "gm-key-1"
  , openRouterStored := none
  , hasGeminiApiKey := true
  , hasOpenRouterApiKey := false
  , geminiApiKeyInput := ""
  , openRouterApiKeyInput := ""
  , selectedOpenRouterModel := "google/gemini-flash-1.5" }

end NanoBanana

namespace NanoBanana

/-! Helper lemmas. -/

theorem string_append_ne_empty (a b : String) (h : a ≠ "") : a ++ b ≠ "" := by
  intro hc
  apply h
  have hd : (a ++ b).data = ("" : String).data := congrArg String.data hc
  simp [String.data_append] at hd
  cases a
  simp_all

theorem appendClause_ne_empty (s c : String) (hc : c ≠ "") : appendClause s c ≠ "" := by
  unfold appendClause
  split
  · exact hc
  · next hs =>
      have := string_append_ne_empty s (", " ++ c) hs
      simpa [String.append_assoc] using this

theorem personClause_ne_empty (sug : Option String) (i : Nat) :
    personClause sug i ≠ "" := by
  unfold personClause
  match sug with
  | none => exact string_append_ne_empty "una persona " _ (by decide)
  | some s =>
      by_cases hs : s = ""
      · simpa [hs] using string_append_ne_empty "una persona " _ (by decide)
      · simp [hs]

theorem foldl_appendClause (cs : List String) : ∀ p : String, (∀ x ∈ cs, x ≠ "") →
    List.foldl appendClause p cs = joinClauses ((if p = "" then [] else [p]) ++ cs) := by
  induction cs with
  | nil =>
      intro p _
      by_cases hp : p = "" <;> simp [hp, joinClauses]
  | cons c cs ih =>
      intro p h
      have hc : c ≠ "" := h c (by simp)
      have hcs : ∀ x ∈ cs, x ≠ "" := fun x hx => h x (by simp [hx])
      have hpc : appendClause p c ≠ "" := appendClause_ne_empty p c hc
      simp only [List.foldl_cons]
      rw [ih (appendClause p c) hcs, if_neg hpc]
      by_cases hp : p = ""
      · simp [appendClause, hp]
      · rw [if_neg hp]
        simp only [appendClause, if_neg hp, List.cons_append, List.nil_append]
        cases cs with
        | nil => simp [joinClauses]
        | cons d ds => simp [joinClauses, String.append_assoc]


theorem specTail_ne_empty (ap : Bool) (sug : Option String) (i : Nat) (rt : Bool)
    (io : Option ImageData) (sim : Option Nat) :
    ∀ x ∈ specTail ap sug i rt io sim, x ≠ "" := by
  intro x hx
  unfold specTail at hx
  simp only [List.mem_append] at hx
  rcases hx with (hx | hx) | hx
  · rcases ap <;> simp at hx
    rw [hx]
    exact personClause_ne_empty sug i
  · rcases rt <;> simp at hx
    rw [hx]
    decide
  · rcases io with _ | img <;> rcases sim with _ | s <;> simp at hx
    by_cases hs : similarityClause s = "" <;> simp [hs] at hx
    rw [hx]
    exact hs

theorem assembledPrompt_as_foldl (p : String) (ap : Bool) (sug : Option String) (i : Nat)
    (rt : Bool) (io : Option ImageData) (sim : Option Nat) :
    assembledPrompt p ap sug i rt io sim
      = List.foldl appendClause (jsTrim p) (specTail ap sug i rt io sim) := by
  unfold assembledPrompt assembledBase specTail
  rcases io with _ | img
  · rcases sim with _ | s <;> rcases ap <;> rcases rt <;> simp [List.foldl]
  · rcases sim with _ | s
    · rcases ap <;> rcases rt <;> simp [List.foldl]
    · by_cases hs : similarityClause s = "" <;> rcases ap <;> rcases rt <;>
        simp [hs, List.foldl]

theorem assembledPrompt_eq_join (p : String) (ap : Bool) (sug : Option String) (i : Nat)
    (rt : Bool) (io : Option ImageData) (sim : Option Nat) :
    assembledPrompt p ap sug i rt io sim
      = joinClauses (specClauseList p ap sug i rt io sim) := by
  rw [assembledPrompt_as_foldl,
    foldl_appendClause _ (jsTrim p) (specTail_ne_empty ap sug i rt io sim)]
  rfl

/-- C5: Image-mode prompt assembly appends its clauses to the trimmed user
prompt in a fixed order, each joined with ", ": first (when add-person is
set) the person clause — the cached contextual suggestion when present,
otherwise "una persona " followed by one of the six fixed fallback phrases —
second (when remove-text is set) the clause "remove any text from the image",
third the similarity-band clause. -/
theorem image_prompt_clause_order (p : String) (ap : Bool) (sug : Option String)
    (i : Nat) (rt : Bool) (io : Option ImageData) (sim : Option Nat) (h6 : i < 6) :
    assembledPrompt p ap sug i rt io sim
      = joinClauses (specClauseList p ap sug i rt io sim)
    ∧ ((sug = none ∨ sug = some "") →
        ∃ a ∈ PERSON_ACTIONS, personClause sug i = "una persona " ++ a) := by
  refine ⟨assembledPrompt_eq_join p ap sug i rt io sim, ?_⟩
  intro hsug
  refine ⟨PERSON_ACTIONS.getD i "", ?_, ?_⟩
  · interval_cases i <;> decide
  · rcases hsug with h | h <;> simp [personClause, h]

/-- C5 witness: the order law and the fallback-pool law evaluated at a
concrete Image-mode submission. -/
theorem image_prompt_clause_order_witness :
    assembledPrompt "a red bicycle" true none 3 true
        (some ⟨"bytes0", "image/png"⟩) (some 75)
      = joinClauses (specClauseList "a red bicycle" true none 3 true
        (some ⟨"bytes0", "image/png"⟩) (some 75))
    ∧ ∃ a ∈ PERSON_ACTIONS, personClause none 3 = "una persona " ++ a :=
  ⟨(image_prompt_clause_order "a red bicycle" true none 3 true
      (some ⟨"bytes0", "image/png"⟩) (some 75) (by decide)).1,
   (image_prompt_clause_order "a red bicycle" true none 3 true
      (some ⟨"bytes0", "image/png"⟩) (some 75) (by decide)).2 (Or.inl rfl)⟩

/-- C1 counterexample: in the claim's scenario as stated — Image mode, prompt
"a red bicycle", similarity = 50, and nothing else set (in particular no
uploaded base image) — exactly one operation is dispatched, but its final
prompt is "a red bicycle": the similarity clause is not appended, because the
code only appends it when a base image is uploaded. -/
theorem image_similarity_scenario_counterexample :
    imageDispatches "a red bicycle" false none 0 false none (some 50)
      = ["a red bicycle"]
    ∧ ("a red bicycle" : String)
      ≠ "a red bicycle, apply the changes described, but feel free to creatively reinterpret the original image" := by
  constructor
  · decide
  · decide

/-- C1 (amended): when a base image is uploaded, each of the four similarity
bands appends exactly that band's fixed instruction clause; a non-band value
appends nothing (never a freeform string); when similarity is unset, or when
no base image is uploaded, no similarity clause is appended; and the claim's
scenario — prompt "a red bicycle", similarity = 50 — dispatches exactly one
operation with the claimed final prompt once a base image is uploaded. -/
theorem image_similarity_bands (p : String) (ap : Bool) (sug : Option String)
    (i : Nat) (rt : Bool) (img : ImageData) :
    (assembledPrompt p ap sug i rt (some img) (some 25)
      = appendClause (assembledBase p ap sug i rt)
          "use the original image as a loose inspiration for the new image")
    ∧ (assembledPrompt p ap sug i rt (some img) (some 50)
      = appendClause (assembledBase p ap sug i rt)
          "apply the changes described, but feel free to creatively reinterpret the original image")
    ∧ (assembledPrompt p ap sug i rt (some img) (some 75)
      = appendClause (assembledBase p ap sug i rt)
          "apply the changes described while maintaining a strong resemblance to the original image's style and composition")
    ∧ (assembledPrompt p ap sug i rt (some img) (some 100)
      = appendClause (assembledBase p ap sug i rt)
          "make only the changes described and keep the rest of the image identical to the original")
    ∧ (∀ io : Option ImageData,
        assembledPrompt p ap sug i rt io none = assembledBase p ap sug i rt)
    ∧ (∀ sim : Nat,
        assembledPrompt p ap sug i rt none (some sim) = assembledBase p ap sug i rt)
    ∧ (∀ sim : Nat, sim ≠ 25 → sim ≠ 50 → sim ≠ 75 → sim ≠ 100 →
        assembledPrompt p ap sug i rt (some img) (some sim)
          = assembledBase p ap sug i rt)
    ∧ imageDispatches "a red bicycle" false none 0 false (some img) (some 50)
        = ["a red bicycle, apply the changes described, but feel free to creatively reinterpret the original image"] := by
  refine ⟨?_, ?_, ?_, ?_, ?_, ?_, ?_, ?_⟩
  · simp [assembledPrompt, similarityClause]
  · simp [assembledPrompt, similarityClause]
  · simp [assembledPrompt, similarityClause]
  · simp [assembledPrompt, similarityClause]
  · intro io
    cases io <;> rfl
  · intro sim
    rfl
  · intro sim h25 h50 h75 h100
    simp [assembledPrompt, similarityClause, h25, h50, h75, h100]
  · show (if jsTrim (assembledPrompt "a red bicycle" false none 0 false (some img) (some 50)) = ""
        ∧ (some img : Option ImageData) = none then ([] : List String)
      else [assembledPrompt "a red bicycle" false none 0 false (some img) (some 50)]) = _
    rw [if_neg (by simp)]
    congr 1

/-- C1 witness: the amended claim evaluated at a concrete base image, band
50 and a non-band value 60. -/
theorem image_similarity_bands_witness :
    assembledPrompt "a red bicycle" false none 0 false
        (some ⟨"bytes0", "image/png"⟩) (some 60)
      = assembledBase "a red bicycle" false none 0 false
    ∧ imageDispatches "a red bicycle" false none 0 false
        (some ⟨"bytes0", "image/png"⟩) (some 50)
      = ["a red bicycle, apply the changes described, but feel free to creatively reinterpret the original image"] :=
  ⟨(image_similarity_bands "a red bicycle" false none 0 false
      ⟨"bytes0", "image/png"⟩).2.2.2.2.2.2.1 60 (by decide) (by decide) (by decide) (by decide),
   (image_similarity_bands "a red bicycle" false none 0 false
      ⟨"bytes0", "image/png"⟩).2.2.2.2.2.2.2⟩

/-- C4 counterexample: switching Image -> Video -> Image with no intervening
user mutation does not preserve the Image-mode state bit-for-bit: a non-empty
prompt is reset to the empty string. -/
theorem mode_switch_counterexample :
    handleModeChange
        (handleModeChange { emptyAppState with prompt := "a red bicycle" } Mode.video)
        Mode.image
      ≠ { emptyAppState with prompt := "a red bicycle" } := by
  decide

/-- C4 (amended): switching A to B and back to A resets the per-mode input and
output fields to their initial defaults (prompt, similarity, edit flags,
images, output assets, error, suggestion, language, voice, sources, recipe
image, translation text and result); every other field (loading flags,
provider selection, credential state) is preserved. -/
theorem mode_switch_resets (s : AppState) (B : Mode) (h : B ≠ s.mode) :
    handleModeChange (handleModeChange s B) s.mode
      = { s with
          prompt := ""
          similarity := none
          removeText := false
          singleImageData := none
          productImages := []
          inspirationImageData := none
          assetUrls := []
          assetType := none
          error := none
          addPerson := false
          contextualPersonSuggestion := none
          targetLanguage := "Spanish"
          stylizeAndCorrect := false
          selectedVoice := "Kore"
          sources := none
          recipeImageUrl := none
          textToTranslate := ""
          translationResult := none } := by
  have h2 : s.mode ≠ B := fun e => h e.symm
  simp [handleModeChange, h, h2]

/-- C4 witness: the reset law evaluated at a concrete state with a non-empty
prompt, switching Image -> Video -> Image. -/
theorem mode_switch_resets_witness :
    handleModeChange
        (handleModeChange { emptyAppState with prompt := "a red bicycle" } Mode.video)
        Mode.image
      = { { emptyAppState with prompt := "a red bicycle" } with
          prompt := ""
          similarity := none
          removeText := false
          singleImageData := none
          productImages := []
          inspirationImageData := none
          assetUrls := []
          assetType := none
          error := none
          addPerson := false
          contextualPersonSuggestion := none
          targetLanguage := "Spanish"
          stylizeAndCorrect := false
          selectedVoice := "Kore"
          sources := none
          recipeImageUrl := none
          textToTranslate := ""
          translationResult := none } :=
  mode_switch_resets { emptyAppState with prompt := "a red bicycle" } Mode.video
    (by decide)

/-- C2: when a provider call fails with an auth/quota-classified error (its
lower-cased message contains one of the classifier substrings), the stored
credential of the active provider is cleared — durable copy deleted and the
no-credential view forced (`hasActiveApiKey` becomes false, which both
renders the key-entry screen and falsifies `canGenerate`, blocking further
dispatch) — while the current mode's prompt text (and translation input) is
left unchanged. -/
theorem auth_error_clears_credential (s : AppState) (message : String)
    (h : isAuthQuotaError message = true) :
    storedKeyFor (applyApiError s message) (applyApiError s message).apiProvider = none
    ∧ hasActiveApiKey (applyApiError s message) = false
    ∧ canGenerate (applyApiError s message) = false
    ∧ (applyApiError s message).error = some ErrorSlot.banner
    ∧ (applyApiError s message).prompt = s.prompt
    ∧ (applyApiError s message).textToTranslate = s.textToTranslate
    ∧ (applyApiError s message).apiProvider = s.apiProvider := by
  unfold applyApiError
  rw [if_pos h]
  rcases hp : s.apiProvider <;>
    simp [handleClearKey, storedKeyFor, hasActiveApiKey, canGenerate, hp]

/-- C2 witness: a concrete quota-classified failure observed from the sample
session state. -/
theorem auth_error_clears_credential_witness :
    isAuthQuotaError "You exceeded your current quota, please check your plan and billing details" = true
    ∧ storedKeyFor
        (applyApiError emptyAppState
          "You exceeded your current quota, please check your plan and billing details")
        (applyApiError emptyAppState
          "You exceeded your current quota, please check your plan and billing details").apiProvider
      = none
    ∧ hasActiveApiKey
        (applyApiError emptyAppState
          "You exceeded your current quota, please check your plan and billing details")
      = false :=
  ⟨by decide,
   (auth_error_clears_credential emptyAppState
      "You exceeded your current quota, please check your plan and billing details"
      (by decide)).1,
   (auth_error_clears_credential emptyAppState
      "You exceeded your current quota, please check your plan and billing details"
      (by decide)).2.1⟩

/-- C8: when a provider call fails with an error whose lower-cased message
contains none of the auth/quota classifier substrings, the engine surfaces
that error's message as the mode's single error slot and changes nothing
else — in particular the stored credential and the has-key flags are left
untouched. -/
theorem plain_error_keeps_credential (s : AppState) (message : String)
    (h : isAuthQuotaError message = false) :
    applyApiError s message = { s with error := some (ErrorSlot.msg message) } := by
  unfold applyApiError
  rw [if_neg (by simp [h])]

/-- C8 witness: a concrete empty-result failure message observed from the
sample session state. -/
theorem plain_error_keeps_credential_witness :
    isAuthQuotaError "Image generation failed to produce an image." = false
    ∧ applyApiError emptyAppState "Image generation failed to produce an image."
      = { emptyAppState with
          error := some (ErrorSlot.msg "Image generation failed to produce an image.") } :=
  ⟨by decide,
   plain_error_keeps_credential emptyAppState
     "Image generation failed to produce an image." (by decide)⟩

theorem string_length_pos_iff (s : String) : 0 < s.length ↔ s ≠ "" := by
  constructor
  · intro h hc
    rw [hc] at h
    simp [String.length] at h
  · intro h
    rcases s with ⟨data⟩
    rcases data with _ | ⟨c, cs⟩
    · exact absurd rfl h
    · simp [String.length]

theorem canGenerate_image_needs_inputs (s : AppState) (hm : s.mode = Mode.image)
    (himg : imageGenCanGenerate s = false) : canGenerate s = false := by
  unfold canGenerate
  simp [hm, himg]

/-- C9 (amended): an Image-mode generation request is dispatched only if the
prompt is non-empty or an image is uploaded with at least one edit flag set
(similarity counts as an edit flag; the translation text plays no role); when
that rule fails, the generate control is disabled, so the attempt makes no
provider call and leaves the whole state — inputs and error slot alike —
unchanged (no input-error message is surfaced; the handler's own input-error
message appears only if it is reached with an empty assembled prompt and no
image). -/
theorem image_dispatch_guard (s : AppState) (i : Nat) (hm : s.mode = Mode.image) :
    ((attemptImageGenerate s i).1 ≠ [] →
      jsTrim s.prompt ≠ ""
        ∨ (s.singleImageData.isSome
            ∧ (s.removeText = true ∨ s.addPerson = true ∨ s.similarity.isSome)))
    ∧ ((jsTrim s.prompt = ""
        ∧ (s.singleImageData = none
            ∨ (s.removeText = false ∧ s.addPerson = false ∧ s.similarity = none))) →
      attemptImageGenerate s i = ([], s)) := by
  constructor
  · intro hdisp
    by_cases hg : (s.isLoading || s.isTranslating || !canGenerate s) = true
    · exfalso
      apply hdisp
      unfold attemptImageGenerate
      simp [hm, hg]
    · have hcg : canGenerate s = true := by
        simp only [Bool.or_eq_true, Bool.not_eq_true'] at hg
        push_neg at hg
        have h3 := hg.2
        simpa using h3
      have himg : imageGenCanGenerate s = true := by
        by_contra hfalse
        rw [Bool.not_eq_true] at hfalse
        rw [canGenerate_image_needs_inputs s hm hfalse] at hcg
        cases hcg
      unfold imageGenCanGenerate at himg
      simp only [Bool.and_eq_true, Bool.or_eq_true, decide_eq_true_eq] at himg
      rcases himg.2 with hlen | hflag
      · exact Or.inl ((string_length_pos_iff _).mp hlen)
      · exact Or.inr ⟨hflag.1, by tauto⟩
  · rintro ⟨hp, hrest⟩
    have himg : imageGenCanGenerate s = false := by
      unfold imageGenCanGenerate
      have hlen : ¬ 0 < (jsTrim s.prompt).length := by
        rw [hp]
        decide
      rcases hrest with hnone | ⟨hr, ha, hs⟩
      · simp [hm, hnone, hlen]
      · simp [hm, hr, ha, hs, hlen]
    have hcg : canGenerate s = false := canGenerate_image_needs_inputs s hm himg
    unfold attemptImageGenerate
    simp [hm, hcg]


/-- C9 counterexample: with the minimum-input rule failing (empty prompt, no
uploaded image, no edit flag, empty translation text), an Image-mode
submission attempt dispatches nothing — but it also surfaces no input-error
message: the generate button is disabled and the state is unchanged, with the
error slot still empty, contradicting the claim that an input-error message
is surfaced. -/
theorem image_dispatch_guard_counterexample :
    attemptImageGenerate emptyAppState 0 = ([], emptyAppState)
    ∧ emptyAppState.error = none
    ∧ jsTrim emptyAppState.prompt = ""
    ∧ emptyAppState.singleImageData = none
    ∧ emptyAppState.removeText = false
    ∧ emptyAppState.addPerson = false
    ∧ emptyAppState.similarity = none
    ∧ emptyAppState.textToTranslate = "" := by
  decide

/-- C9 witness: the amended guard evaluated at the sample state (rule fails,
attempt is a no-op). -/
theorem image_dispatch_guard_witness :
    attemptImageGenerate emptyAppState 1 = ([], emptyAppState) :=
  (image_dispatch_guard emptyAppState 1 rfl).2 (by decide)

/-- C3 evidence: across three consecutive replacements of the output slot's
blob object URL followed by session teardown, each superseded handle is
revoked exactly twice — once by the effect's cleanup closure (which captured
the old `assetUrls`) and once more by the effect body via
`previousAssetUrls.current`, which holds the same list — while the handle
still live at teardown is revoked exactly once.  This contradicts the
exactly-once release invariant. -/
theorem asset_url_double_release :
    revokeCount (runAssetTrace [["blob:a"], ["blob:b"], ["blob:c"], ["blob:d"]]) "blob:a" = 2
    ∧ revokeCount (runAssetTrace [["blob:a"], ["blob:b"], ["blob:c"], ["blob:d"]]) "blob:b" = 2
    ∧ revokeCount (runAssetTrace [["blob:a"], ["blob:b"], ["blob:c"], ["blob:d"]]) "blob:c" = 2
    ∧ revokeCount (runAssetTrace [["blob:a"], ["blob:b"], ["blob:c"], ["blob:d"]]) "blob:d" = 1 := by
  decide

/-- C6: after submission, the engine re-checks the operation at a fixed
10-second interval, issuing exactly one poll call per interval while the
operation is non-terminal: if the submitted operation is non-terminal and the
provider answers with `pre.length` non-terminal polls followed by one
terminal poll, exactly `pre.length + 1` poll calls are made, each preceded by
one 10-second sleep, and when the terminal operation carries a download link
the request settles in success exactly once. -/
theorem video_polling_loop (op₀ t : VideoOp) (pre : List VideoOp)
    (h₀ : op₀.done = false) (hpre : ∀ p ∈ pre, p.done = false) (ht : t.done = true) :
    pollLoop op₀ (pre ++ [t])
      = some (t, pre.length + 1, (pre.length + 1) * POLL_INTERVAL_MS)
    ∧ ∀ u, t.uri = some u →
        generateVideoRun op₀ (pre ++ [t])
          = some (Except.ok u, pre.length + 1, (pre.length + 1) * POLL_INTERVAL_MS) := by
  have hloop : pollLoop op₀ (pre ++ [t])
      = some (t, pre.length + 1, (pre.length + 1) * POLL_INTERVAL_MS) := by
    induction pre generalizing op₀ with
    | nil =>
        unfold pollLoop
        rw [if_neg (by simp [h₀])]
        simp only [List.nil_append]
        unfold pollLoop
        rw [if_pos ht]
        simp [POLL_INTERVAL_MS]
    | cons p pre ih =>
        have hp : p.done = false := hpre p (by simp)
        have hpre2 : ∀ q ∈ pre, q.done = false := fun q hq => hpre q (by simp [hq])
        unfold pollLoop
        rw [if_neg (by simp [h₀])]
        simp only [List.cons_append]
        rw [ih p hp hpre2]
        simp [POLL_INTERVAL_MS]
        ring
  refine ⟨hloop, ?_⟩
  intro u hu
  unfold generateVideoRun
  rw [hloop]
  simp [settleVideo, hu]

/-- C6 witness: the claim's scenario — two non-terminal polls, then a
terminal success — makes exactly 3 poll calls (30 seconds of fixed-interval
waiting) and settles in success exactly once. -/
theorem video_polling_loop_witness :
    generateVideoRun ⟨false, none, none⟩
        [⟨false, none, none⟩, ⟨false, none, none⟩, ⟨true, some "https://dl/video1", none⟩]
      = some (Except.ok "https://dl/video1", 3, 30000) := by
  have h := (video_polling_loop ⟨false, none, none⟩ ⟨true, some "https://dl/video1", none⟩
    [⟨false, none, none⟩, ⟨false, none, none⟩] rfl (by decide) rfl).2
    "https://dl/video1" rfl
  simpa [POLL_INTERVAL_MS] using h

theorem histModeOfTag_tag (m : HistMode) : histModeOfTag (histModeTag m) = some m := by
  cases m <;> rfl

theorem histAssetOfTag_tag (a : HistAssetType) :
    histAssetOfTag (histAssetTag a) = some a := by
  cases a <;> rfl

theorem decStrs_map_str (xs : List String) : decStrs (xs.map JVal.str) = some xs := by
  induction xs with
  | nil => rfl
  | cons x xs ih => simp [decStrs, decStr, ih]

set_option maxHeartbeats 2000000 in
theorem decodeItem_encodeItem (h : HistoryItem) : decodeItem (encodeItem h) = some h := by
  rcases h with ⟨id, mode, prompt, assetUrls, assetType, translationResult,
    recipeImageUrl, blogPostImageUrl, timestamp, sources⟩
  cases assetType <;> cases translationResult <;> cases recipeImageUrl <;>
    cases blogPostImageUrl <;> cases sources <;>
      simp [encodeItem, decodeItem, encOptStr, decOptStr, decAssetTypeVal,
        decSourcesVal, histModeOfTag_tag, histAssetOfTag_tag, decStrs_map_str]

theorem decodeLog_encodeLog (log : List HistoryItem) :
    decodeLog (encodeLog log) = some log := by
  induction log with
  | nil => rfl
  | cons h hs ih =>
      simp only [encodeLog, decodeLog, List.map_cons, decodeItems,
        decodeItem_encodeItem h]
      simp only [encodeLog, decodeLog] at ih
      simp [ih]


theorem mem_foldl_historyAppend (gs : List HistoryItem) :
    ∀ (acc : List HistoryItem) (h : HistoryItem),
      h ∈ gs.foldl historyAppend acc → h ∈ acc ∨ h ∈ gs := by
  induction gs with
  | nil =>
      intro acc h hh
      exact Or.inl hh
  | cons g gs ih =>
      intro acc h hh
      simp only [List.foldl_cons] at hh
      rcases ih (historyAppend acc g) h hh with hmem | hmem
      · unfold historyAppend at hmem
        have hcons : h ∈ g :: acc := List.take_subset _ _ hmem
        rcases List.mem_cons.mp hcons with heq | htail
        · exact Or.inr (by simp [heq])
        · exact Or.inl htail
      · exact Or.inr (by simp [hmem])

/-- C7: for every `HistoryItem` ever produced by `append` (here: every item
of the log built by any sequence of appends), `selectForReplay` is a total
function reconstructing a `ModeState` whose visible output fields — asset
references, asset kind, secondary translation text, cover-image reference —
equal those the originating generation recorded at append time; and the law
survives persistence: serializing the log to the durable store and reloading
it yields the log unchanged. -/
theorem history_replay_roundtrip (gs : List HistoryItem) :
    decodeLog (encodeLog (buildLog gs)) = some (buildLog gs)
    ∧ ∀ h ∈ buildLog gs, (selectForReplay h).visible = h.visible ∧ h ∈ gs := by
  refine ⟨decodeLog_encodeLog (buildLog gs), ?_⟩
  intro h hh
  refine ⟨rfl, ?_⟩
  rcases mem_foldl_historyAppend gs [] h hh with hmem | hmem
  · cases hmem
  · exact hmem

theorem wavHeader_explicit (d : Nat) : wavHeader d 24000 1
    = 82 :: 73 :: 70 :: 70
      :: ((36 + d) % 256) :: ((36 + d) / 256 % 256) :: ((36 + d) / 65536 % 256)
      :: ((36 + d) / 16777216 % 256)
      :: 87 :: 65 :: 86 :: 69 :: 102 :: 109 :: 116 :: 32
      :: 16 :: 0 :: 0 :: 0
      :: 1 :: 0
      :: 1 :: 0
      :: 192 :: 93 :: 0 :: 0
      :: 128 :: 187 :: 0 :: 0
      :: 2 :: 0
      :: 16 :: 0
      :: 100 :: 97 :: 116 :: 97
      :: (d % 256) :: (d / 256 % 256) :: (d / 65536 % 256) :: (d / 16777216 % 256)
      :: [] := by
  unfold wavHeader
  rw [show tagBytes "RIFF" = [82,73,70,70] by decide,
      show tagBytes "WAVE" = [87,65,86,69] by decide,
      show tagBytes "fmt " = [102,109,116,32] by decide,
      show tagBytes "data" = [100,97,116,97] by decide]
  simp [u32le, u16le]

/-- C10: for every base64 input whose decoded PCM payload has 2*n bytes,
createWavBlobFromBase64 returns a Blob of declared type "audio/wav" and total
size 44 + 2*n bytes, whose 44-byte header encodes exactly: the RIFF tag,
RIFF chunk size 36 + 2*n, the WAVE and "fmt " tags, fmt chunk size 16, PCM
format tag 1, 1 channel, 24000 Hz sample rate, byte rate 48000, block align
2, 16 bits per sample, the data tag and data chunk size 2*n.  (The size
fields are 32-bit little-endian, so the law is stated for payloads below the
4 GiB wrap.) -/
theorem wav_blob_header (b64 : String) (n : Nat) (pcm : List Nat)
    (hdec : atob b64 = some pcm) (hlen : pcm.length = 2 * n)
    (hfit : 36 + 2 * n < 4294967296) :
    ∃ blob, createWavBlobFromBase64 b64 = some blob
      ∧ blob.type = "audio/wav"
      ∧ blob.size = 44 + 2 * n
      ∧ blob.bytes.take 4 = tagBytes "RIFF"
      ∧ readU32le blob.bytes 4 = 36 + 2 * n
      ∧ (blob.bytes.drop 8).take 4 = tagBytes "WAVE"
      ∧ (blob.bytes.drop 12).take 4 = tagBytes "fmt "
      ∧ readU32le blob.bytes 16 = 16
      ∧ readU16le blob.bytes 20 = 1
      ∧ readU16le blob.bytes 22 = 1
      ∧ readU32le blob.bytes 24 = 24000
      ∧ readU32le blob.bytes 28 = 48000
      ∧ readU16le blob.bytes 32 = 2
      ∧ readU16le blob.bytes 34 = 16
      ∧ (blob.bytes.drop 36).take 4 = tagBytes "data"
      ∧ readU32le blob.bytes 40 = 2 * n := by
  have heven : pcm.length % 2 = 0 := by omega
  have hrun : createWavBlobFromBase64 b64 = some (createWavBlob pcm 24000 1) := by
    unfold createWavBlobFromBase64
    rw [hdec]
    simp [heven]
  have hds : pcm.length / 2 * 2 = 2 * n := by omega
  have hbytes : (createWavBlob pcm 24000 1).bytes = wavHeader (2 * n) 24000 1 ++ pcm := by
    have htake : pcm.take (pcm.length / 2 * 2) = pcm := by
      rw [hds, ← hlen, List.take_length]
    unfold createWavBlob
    show wavHeader (pcm.length / 2 * 2) 24000 1 ++ pcm.take (pcm.length / 2 * 2)
        = wavHeader (2 * n) 24000 1 ++ pcm
    rw [htake, hds]
  have hb : (createWavBlob pcm 24000 1).bytes
      = 82 :: 73 :: 70 :: 70
        :: ((36 + 2 * n) % 256) :: ((36 + 2 * n) / 256 % 256)
        :: ((36 + 2 * n) / 65536 % 256) :: ((36 + 2 * n) / 16777216 % 256)
        :: 87 :: 65 :: 86 :: 69 :: 102 :: 109 :: 116 :: 32
        :: 16 :: 0 :: 0 :: 0
        :: 1 :: 0
        :: 1 :: 0
        :: 192 :: 93 :: 0 :: 0
        :: 128 :: 187 :: 0 :: 0
        :: 2 :: 0
        :: 16 :: 0
        :: 100 :: 97 :: 116 :: 97
        :: (2 * n % 256) :: (2 * n / 256 % 256) :: (2 * n / 65536 % 256)
        :: (2 * n / 16777216 % 256)
        :: pcm := by
    rw [hbytes, wavHeader_explicit]
    simp
  refine ⟨createWavBlob pcm 24000 1, hrun, rfl, ?_, ?_, ?_, ?_, ?_, ?_, ?_, ?_, ?_,
    ?_, ?_, ?_, ?_, ?_⟩
  · show (createWavBlob pcm 24000 1).bytes.length = 44 + 2 * n
    rw [hb]
    simp [hlen]
    omega
  · rw [hb, show tagBytes "RIFF" = [82,73,70,70] by decide]
    simp
  · rw [hb]
    simp [readU32le, leVal]
    omega
  · rw [hb, show tagBytes "WAVE" = [87,65,86,69] by decide]
    simp
  · rw [hb, show tagBytes "fmt " = [102,109,116,32] by decide]
    simp
  · rw [hb]
    simp [readU32le, leVal]
  · rw [hb]
    simp [readU16le, leVal]
  · rw [hb]
    simp [readU16le, leVal]
  · rw [hb]
    simp [readU32le, leVal]
  · rw [hb]
    simp [readU32le, leVal]
  · rw [hb]
    simp [readU16le, leVal]
  · rw [hb]
    simp [readU16le, leVal]
  · rw [hb, show tagBytes "data" = [100,97,116,97] by decide]
    simp
  · rw [hb]
    simp [readU32le, leVal]
    omega


/-- C10 witness: the header law evaluated at the concrete base64 input
"AAA=", which decodes to the 2-byte PCM payload [0, 0]. -/
theorem wav_blob_header_witness :
    atob "AAA=" = some [0, 0]
    ∧ ∃ blob, createWavBlobFromBase64 "AAA=" = some blob
      ∧ blob.type = "audio/wav"
      ∧ blob.size = 44 + 2 * 1
      ∧ blob.bytes.take 4 = tagBytes "RIFF"
      ∧ readU32le blob.bytes 4 = 36 + 2 * 1
      ∧ (blob.bytes.drop 8).take 4 = tagBytes "WAVE"
      ∧ (blob.bytes.drop 12).take 4 = tagBytes "fmt "
      ∧ readU32le blob.bytes 16 = 16
      ∧ readU16le blob.bytes 20 = 1
      ∧ readU16le blob.bytes 22 = 1
      ∧ readU32le blob.bytes 24 = 24000
      ∧ readU32le blob.bytes 28 = 48000
      ∧ readU16le blob.bytes 32 = 2
      ∧ readU16le blob.bytes 34 = 16
      ∧ (blob.bytes.drop 36).take 4 = tagBytes "data"
      ∧ readU32le blob.bytes 40 = 2 * 1 :=
  ⟨by decide,
   wav_blob_header "AAA=" 1 [0, 0] (by decide) (by decide) (by decide)⟩

end NanoBanana
